import Mathlib

set_option autoImplicit false

/-!
Verification development for the QTI-to-LMS converter: a shallow embedding of
`src/qti_to_lms/qti_to_besser.py` and of the domain model in
`src/qti_to_lms/metamodel/qti.py`, together with theorems settling the frozen
behavioural claims about the parser and the model invariants.

XML documents are modelled after `xml.etree.ElementTree`: an element carries a
tag, an attribute list, the text appearing before its first child (`text`),
its children, and the text following its end tag inside the parent (`tail`).
Python exceptions are modelled with `Except`; `None`-able strings with
`Option String`; Python `set`s of freshly allocated (identity-hashed) objects
with Lean lists in construction order — except the set of collected
test-part elements, whose address-dependent iteration order is observable
(through the never-reset section accumulator) and therefore modelled
explicitly by `qti_to_besser_set_order`.
-/

/-- Python whitespace as used by `str.strip()`. -/
def isPySpace (c : Char) : Bool :=
  c == ' ' || c == '\t' || c == '\n' || c == '\r' || c == '\x0b' || c == '\x0c'

/-- Embedding of Python `str.strip()`: drop leading and trailing whitespace. -/
def pyStrip (s : String) : String :=
  String.mk (((s.data.dropWhile isPySpace).reverse.dropWhile isPySpace).reverse)

/-- Truthiness of an optional string (`None` and `""` are falsy in Python). -/
def strTruthy (o : Option String) : Bool :=
  o.getD "" != ""

/-- Embedding of the repeated idiom `tag.split('}')[-1]`: strip an XML
namespace prefix, keeping the part after the last closing brace. -/
def localName (tag : String) : String :=
  String.mk ((tag.data.reverse.takeWhile (fun c => c != '\x7d')).reverse)

/-- Embedding of `attrib.get(key, default)` on an attribute list. -/
def attrGet (attrs : List (String × String)) (key default : String) : String :=
  match attrs.find? (fun p => p.fst == key) with
  | some p => p.snd
  | none => default

/-- Embedding of `attrib.get(key)` (no default, may be `None`). -/
def attrLookup (attrs : List (String × String)) (key : String) : Option String :=
  (attrs.find? (fun p => p.fst == key)).map Prod.snd

/-- An `xml.etree.ElementTree.Element`: tag, attributes, leading text,
children, and tail text (the text after the element inside its parent). -/
inductive Elem where
  | mk (tag : String) (attrs : List (String × String)) (text : Option String)
       (children : List Elem) (tail : Option String)

def Elem.tag : Elem → String
  | .mk t _ _ _ _ => t

def Elem.attrs : Elem → List (String × String)
  | .mk _ a _ _ _ => a

def Elem.text : Elem → Option String
  | .mk _ _ t _ _ => t

def Elem.children : Elem → List Elem
  | .mk _ _ _ c _ => c

def Elem.tail : Elem → Option String
  | .mk _ _ _ _ t => t

mutual

/-- Embedding of `"".join(elem.itertext())`: the element's text followed by
each child's itertext and tail, in document order. -/
def Elem.itertext : Elem → String
  | .mk _ _ t cs _ => t.getD "" ++ itertextList cs

def itertextList : List Elem → String
  | [] => ""
  | c :: cs => c.itertext ++ c.tail.getD "" ++ itertextList cs

end

mutual

/-- Embedding of `elem.iter()`: the element followed by its descendants in
document (pre-)order. -/
def Elem.iterNodes : Elem → List Elem
  | .mk t a x cs l => .mk t a x cs l :: iterNodesList cs

def iterNodesList : List Elem → List Elem
  | [] => []
  | c :: cs => c.iterNodes ++ iterNodesList cs

end

/-! ## Domain model (`src/qti_to_lms/metamodel/qti.py`) -/

/-- Python exceptions that the converter can raise and (sometimes) catch. -/
inductive PyErr where
  | typeError (msg : String)
  | attributeError (msg : String)
deriving DecidableEq, Repr

/-- `Choice`: a `<qti-simple-choice>` with its identifier and visible text. -/
structure Choice where
  identifier : String
  text : String
deriving DecidableEq, Repr

/-- `TextEntryInteraction`: an inline fill-in-the-blank widget, identified by
its response identifier. -/
structure TextEntryInteraction where
  identifier : String
deriving DecidableEq, Repr

/-- An entry of a `ParagraphBlock.inline_elements` list: either a text run
(Python `str`) or a `TextEntryInteraction` marker. -/
inductive InlineElement where
  | textRun (s : String)
  | textEntry (t : TextEntryInteraction)
deriving DecidableEq, Repr

def InlineElement.isTextEntry : InlineElement → Bool
  | .textEntry _ => true
  | .textRun _ => false

mutual

/-- `ParagraphBlock`: optional plain text, optional set of `BlockQuote`s, and
an optional list of inline elements (all three are optional constructor
arguments in the source). -/
inductive ParagraphBlock where
  | mk (text : Option String) (quote_blocks : Option (List BlockQuote))
       (inline_elements : Option (List InlineElement))

/-- `BlockQuote`: quoted content owning paragraph blocks. -/
inductive BlockQuote where
  | mk (paragraphs : List ParagraphBlock)

end

def ParagraphBlock.text : ParagraphBlock → Option String
  | .mk t _ _ => t

def ParagraphBlock.quote_blocks : ParagraphBlock → Option (List BlockQuote)
  | .mk _ q _ => q

def ParagraphBlock.inline_elements : ParagraphBlock → Option (List InlineElement)
  | .mk _ _ i => i

def BlockQuote.paragraphs : BlockQuote → List ParagraphBlock
  | .mk ps => ps

/-- `Prompt`: short text and/or detailed paragraph blocks. -/
structure Prompt where
  text : Option String
  paragraphs : Option (List ParagraphBlock)

/-- `Answer`: one scored response alternative built from a `qti-map-entry`.
The converter stores both attributes as strings. -/
structure Answer where
  text : String
  score : String
deriving DecidableEq, Repr

/-- `ResponseDeclaration`: the expected-answer contract for a question. -/
structure ResponseDeclaration where
  identifier : String
  cardinality : String
  base_type : String
  correct_choices : List Choice
  correct_answers : List Answer

/-- `ModalFeedback`: conditional feedback with a visibility flag. -/
structure ModalFeedback where
  identifier : String
  title : String
  data_extension : String
  is_hide : Bool
  paragraphs : List ParagraphBlock

/-- `QuestionBody`: the content container of one item. -/
structure QuestionBody where
  identifier : String
  class_name : String
  label : String
  language : String
  text_dir : String
  data_catalog_idref : String
  choices : List Choice
  max_choices : Option String
  min_choices : Option String
  prompts : List Prompt
  paragraphs : List ParagraphBlock

/-- `ExtendedTextInteraction`: a block free-text widget with prompts. -/
structure ExtendedTextInteraction where
  identifier : String
  prompts : List Prompt

/-- `Question`: one assessment item. `adaptive` and `time_dependent` come from
`attrib.get` without a default, hence optional. -/
structure Question where
  identifier : String
  title : String
  body : QuestionBody
  responses : List ResponseDeclaration
  feedbacks : List ModalFeedback
  label : String
  language : String
  tool_name : String
  tool_version : String
  adaptive : Option String
  time_dependent : Option String
  data_extension : String

/-- `NavigationModeEnum` from the metamodel. -/
inductive NavigationModeEnum where
  | Linear
  | Nonlinear
deriving DecidableEq, Repr

/-- `SubmissionModeEnum` from the metamodel. -/
inductive SubmissionModeEnum where
  | Individual
  | Simultaneous
deriving DecidableEq, Repr

/-- `TestSection`: mid-level container (may own nested sub-sections). -/
inductive TestSection where
  | mk (identifier title : String) (questions : List Question) (visible : Bool)
       (class_name : Option String) (required fixed keep_together : Bool)
       (data_extension : Option String) (sub_sections : List TestSection)

def TestSection.title : TestSection → String
  | .mk _ t _ _ _ _ _ _ _ _ => t

/-- `TestPart`: high-level test division. -/
structure TestPart where
  identifier : String
  title : Option String
  class_name : Option String
  data_extension : Option String
  sections : List TestSection
  navigation_mode : NavigationModeEnum
  submission_mode : SubmissionModeEnum

/-- `TestPart.__init__` with the `sections` setter check: sibling section
titles must be unique (`len(titles) != len(set(titles))` raises
`ValueError`). -/
def TestPart.make (identifier : String) (sections : List TestSection)
    (navigation_mode : NavigationModeEnum) (submission_mode : SubmissionModeEnum)
    (title class_name data_extension : Option String) : Except String TestPart :=
  let titles := sections.map TestSection.title
  if titles.length ≠ titles.dedup.length then
    .error "A test part cannot have two sections with the same name"
  else
    .ok ⟨identifier, title, class_name, data_extension, sections,
         navigation_mode, submission_mode⟩

/-- `TestDefinition`: a whole test document. -/
structure TestDefinition where
  identifier : String
  title : String
  class_name : Option String
  parts : List TestPart
  tool_name : Option String
  tool_version : Option String
  data_extension : Option String

/-- `TestDefinition.__init__` with the `parts` setter check: sibling part
titles must be unique, else `ValueError`. -/
def TestDefinition.make (identifier title : String) (parts : List TestPart)
    (class_name tool_name tool_version data_extension : Option String) :
    Except String TestDefinition :=
  let titles := parts.map TestPart.title
  if titles.length ≠ titles.dedup.length then
    .error "A test definition cannot have two parts with the same name"
  else
    .ok ⟨identifier, title, class_name, parts, tool_name, tool_version,
         data_extension⟩

/-- Modelled from the spec: the `AssessmentSection` class is referenced by
`build_assessment_sections` but missing from the captured sources; per the
spec's data model it is the `TestSection`/`AssessmentSection` entity
(mid-level grouping with flags, questions, and nested sub-sections). -/
inductive AssessmentSection where
  | mk (identifier title class_name : String)
       (sub_sections : List AssessmentSection) (questions : List Question)
       (required fixed visible keep_together data_extension : String)

def AssessmentSection.questions : AssessmentSection → List Question
  | .mk _ _ _ _ qs _ _ _ _ _ => qs

def AssessmentSection.identifier : AssessmentSection → String
  | .mk i _ _ _ _ _ _ _ _ _ => i

/-- Modelled from the spec: the `AssessmentPart` class is referenced by
`build_assessment_parts` but missing from the captured sources; per the
spec's data model it is the TestPart entity (high-level division owning
sections plus navigation and submission modes). -/
structure AssessmentPart where
  identifier : String
  title : String
  class_name : String
  sections : List AssessmentSection
  navigation_mode : String
  submission_mode : String
  data_extension : String

/-- Modelled from the spec: the `AssessmentDefinition` class is referenced by
`qti_to_besser` but missing from the captured sources; per the spec's data
model it is the whole-test entity owning the parts. -/
structure AssessmentDefinition where
  identifier : String
  title : String
  class_name : String
  parts : List AssessmentPart
  tool_name : String
  tool_version : String
  data_extension : String

/-! ## Content parser (`qti_to_besser.py`) -/

/-- Embedding of `build_correct_choices`' loop over the `<qti-value>`
children: strip each value's text (an `AttributeError` if the text is
`None`), look the identifier up among the parsed choices (`next(...)`), and
add the first match, if any, to the accumulated set (Python-set `add`
deduplicates the re-added object). -/
def build_correct_choices_loop (all_choices : List Choice) (acc : List Choice) :
    List Elem → Except PyErr (List Choice)
  | [] => .ok acc
  | v :: vs =>
    if localName v.tag == "qti-value" then
      match v.text with
      | none => .error (.attributeError "NoneType object has no attribute strip")
      | some t =>
        match all_choices.find? (fun c => c.identifier == pyStrip t) with
        | some m =>
          build_correct_choices_loop all_choices
            (if m ∈ acc then acc else acc ++ [m]) vs
        | none => build_correct_choices_loop all_choices acc vs
    else build_correct_choices_loop all_choices acc vs

/-- Embedding of `build_correct_choices`. -/
def build_correct_choices (correct_response_elem : Elem)
    (all_choices : List Choice) : Except PyErr (List Choice) :=
  build_correct_choices_loop all_choices [] correct_response_elem.children

/-- The referenced identifiers of a `<qti-correct-response>` element: the
stripped texts of its `<qti-value>` children (children without text carry
no identifier — resolving them raises instead). -/
def referenced_ids_of (vs : List Elem) : List String :=
  (vs.filter (fun v => localName v.tag == "qti-value")).filterMap
    (fun v => v.text.map pyStrip)

def referenced_ids (correct_response_elem : Elem) : List String :=
  referenced_ids_of correct_response_elem.children

/-- Embedding of `build_answer`. -/
def build_answer (entry_elem : Elem) : Answer :=
  ⟨attrGet entry_elem.attrs "map-key" "", attrGet entry_elem.attrs "mapped-value" ""⟩

/-- Embedding of `build_mapping` (its `answers` component; the default value
is carried alongside). -/
structure Mapping where
  default_value : String
  answers : List Answer

def build_mapping (mapping_elem : Elem) : Mapping :=
  ⟨attrGet mapping_elem.attrs "default-value" "0",
   (mapping_elem.children.filter
      (fun e => localName e.tag == "qti-map-entry")).map build_answer⟩

/-- Embedding of `build_response_declaration`'s inner loop over one
declaration's children: the last `<qti-correct-response>` wins for
`correct_choices`, and each `<qti-mapping>` extends `answers`. -/
def response_decl_children_loop (choices : List Choice)
    (correct_choices : List Choice) (answers : List Answer) :
    List Elem → Except PyErr (List Choice × List Answer)
  | [] => .ok (correct_choices, answers)
  | child :: rest =>
    if localName child.tag == "qti-correct-response" then
      match build_correct_choices child choices with
      | .error e => .error e
      | .ok cc => response_decl_children_loop choices cc answers rest
    else if localName child.tag == "qti-mapping" then
      response_decl_children_loop choices correct_choices
        (answers ++ (build_mapping child).answers) rest
    else response_decl_children_loop choices correct_choices answers rest

/-- Embedding of `build_response_declaration`. -/
def build_response_declaration (response_elems : List Elem)
    (choices : List Choice) : Except PyErr (List ResponseDeclaration) :=
  match response_elems with
  | [] => .ok []
  | elem :: rest =>
    match response_decl_children_loop choices [] [] elem.children with
    | .error e => .error e
    | .ok (correct_choices, answers) =>
      match build_response_declaration rest choices with
      | .error e => .error e
      | .ok rds =>
        .ok (⟨attrGet elem.attrs "identifier" "UNDEFINED",
              attrGet elem.attrs "cardinality" "UNDEFINED",
              attrGet elem.attrs "base-type" "UNDEFINED",
              correct_choices, answers⟩ :: rds)

/-- Embedding of the paragraph accumulation inside `build_feedbacks`' loop:
a `ParagraphBlock` is added for each `<p>` child whose flattened stripped
text is non-empty (the accumulating set is shared across feedbacks). -/
def feedback_paragraph_blocks (feedbacks : List Elem) : List ParagraphBlock :=
  feedbacks.flatMap (fun elem =>
    (elem.children.filter (fun c => localName c.tag == "p")).filterMap
      (fun child =>
        let text := pyStrip child.itertext
        if text != "" then some (.mk (some text) none (some [])) else none))

/-- Embedding of `build_feedbacks`: the loop builds each feedback's paragraph
blocks and then calls `ModalFeedback(identifier=..., is_hidden=..., ...)`.
`ModalFeedback.__init__` has no `is_hidden` parameter (it is `is_hide`), so
the first iteration raises `TypeError`; only an empty input returns. -/
def build_feedbacks (feedbacks : List Elem) : Except PyErr (List ModalFeedback) :=
  match feedbacks with
  | [] => .ok []
  | elem :: _ =>
    let _paragraph_block_set := feedback_paragraph_blocks [elem]
    .error (.typeError
      "ModalFeedback.__init__() got an unexpected keyword argument is_hidden")

/-- Embedding of `build_choice`: one `Choice` per element, identifier from
the attribute and text from the flattened, stripped `itertext`. -/
def build_choice (simple_choices : List Elem) : List Choice :=
  simple_choices.map (fun elem =>
    ⟨attrGet elem.attrs "identifier" "UNDEFINED", pyStrip elem.itertext⟩)

/-- Embedding of `build_paragraph_block`: `ParagraphBlock(text=text)` with
both other fields left at their `None` defaults. -/
def build_paragraph_block (text : String) : ParagraphBlock :=
  .mk (some text) none none

/-- Embedding of the `<qti-prompt>` handling in `build_choice_interaction`:
one `ParagraphBlock` per `<p>` grandchild with its stripped flattened text. -/
def prompt_paragraphs (prompt_elem : Elem) : List ParagraphBlock :=
  (prompt_elem.children.filter (fun g => localName g.tag == "p")).map
    (fun g => .mk (some (pyStrip g.itertext)) none none)

/-- The dictionary returned by `build_choice_interaction`. -/
structure ChoiceInteractionParts where
  choices : List Choice
  prompts : List Prompt
  max_choices : String
  min_choices : String

/-- Embedding of `build_choice_interaction`. -/
def build_choice_interaction (choice_interaction : Elem) : ChoiceInteractionParts :=
  let simple_choices := choice_interaction.children.filter
    (fun c => localName c.tag == "qti-simple-choice")
  let prompts := (choice_interaction.children.filter
    (fun c => localName c.tag == "qti-prompt")).map
      (fun pr => Prompt.mk none (some (prompt_paragraphs pr)))
  ⟨build_choice simple_choices, prompts,
   attrGet choice_interaction.attrs "max-choices" "UNDEFINED",
   attrGet choice_interaction.attrs "min-choices" "UNDEFINED"⟩

/-- Embedding of `build_extended_text_interaction`. -/
def build_extended_text_interaction (child : Elem) : ExtendedTextInteraction :=
  ⟨attrGet child.attrs "response-identifier" "UNDEFINED",
   (child.children.filter (fun e => localName e.tag == "qti-prompt")).map
     (fun e => Prompt.mk (some (pyStrip e.itertext)) none)⟩

/-- Embedding of `parse_paragraph`'s loop body over one node of
`p_elem.iter()`: a text-entry widget flushes the pending text (when its tail
or the stripped pending text is truthy) and appends a marker — the widget's
own text and tail are never added to the pending text — while any other node
contributes its text and tail to the pending text. -/
def parse_paragraph_step (st : List InlineElement × String) (node : Elem) :
    List InlineElement × String :=
  if localName node.tag == "qti-text-entry-interaction" then
    let st :=
      if strTruthy node.tail || pyStrip st.2 != "" then
        (st.1 ++ [.textRun (pyStrip st.2)], "")
      else st
    (st.1 ++ [.textEntry ⟨attrGet node.attrs "response-identifier" "UNDEFINED"⟩],
     st.2)
  else
    (st.1, st.2 ++ node.text.getD "" ++ node.tail.getD "")

/-- Embedding of `parse_paragraph`: fold the step over the preorder node list
(which includes `p_elem` itself), then flush any leftover non-blank text. -/
def parse_paragraph (p_elem : Elem) : List InlineElement :=
  let st := p_elem.iterNodes.foldl parse_paragraph_step ([], "")
  if pyStrip st.2 != "" then st.1 ++ [.textRun (pyStrip st.2)] else st.1

/-- Embedding of the `<p>` branch of `build_question_body`: a non-empty
`parse_paragraph` result is stored as inline elements with `text=None`,
otherwise the stripped flattened text is stored with an empty inline list. -/
def paragraph_block_of_p (child : Elem) : ParagraphBlock :=
  let inline_elements := parse_paragraph child
  if inline_elements != [] then .mk none none (some inline_elements)
  else .mk (some (pyStrip child.itertext)) none (some [])

/-- Embedding of the inner `<p>` handling of the `<div>`/`<blockquote>`
branch of `build_question_body`: the flattened text is kept exactly when the
parsed inline elements are empty or consist only of text-entry widgets. -/
def blockquote_inner_block (p : Elem) : ParagraphBlock :=
  let inline_elements := parse_paragraph p
  let is_text_entry_only := inline_elements.all InlineElement.isTextEntry
  let text_content :=
    if inline_elements.isEmpty || is_text_entry_only then
      some (pyStrip p.itertext)
    else none
  .mk text_content none (some inline_elements)

/-- Embedding of the `<div>` branch of `build_question_body`: each
`<blockquote>` child becomes one wrapper `ParagraphBlock` owning a single
`BlockQuote` of its inner paragraph blocks. -/
def div_branch_blocks (child : Elem) : List ParagraphBlock :=
  (child.children.filter (fun q => localName q.tag == "blockquote")).map
    (fun quote =>
      .mk none
        (some [BlockQuote.mk
          ((quote.children.filter (fun p => localName p.tag == "p")).map
            blockquote_inner_block)])
        none)

/-- The loop state of `build_question_body`. -/
structure BodyState where
  choices : List Choice
  prompts : List Prompt
  paragraph_block_set : List ParagraphBlock
  max_choices : Option String
  min_choices : Option String

/-- Embedding of one iteration of `build_question_body`'s loop. The source
tests `if tag == "p": ...` and then a separate `if tag == "pre": ... elif`
chain, so the `<p>` branch is independent of the chain. -/
def body_step (st : BodyState) (child : Elem) : BodyState :=
  let tag := localName child.tag
  let st :=
    if tag == "p" then
      { st with paragraph_block_set :=
          st.paragraph_block_set ++ [paragraph_block_of_p child] }
    else st
  if tag == "pre" then
    { st with paragraph_block_set := st.paragraph_block_set ++
        [build_paragraph_block ("<pre>" ++ pyStrip child.itertext ++ "</pre>")] }
  else if tag == "div" then
    { st with paragraph_block_set :=
        st.paragraph_block_set ++ div_branch_blocks child }
  else if tag == "qti-extended-text-interaction" then
    { st with prompts :=
        st.prompts ++ (build_extended_text_interaction child).prompts }
  else if tag == "qti-choice-interaction" then
    let parsed := build_choice_interaction child
    { st with
        choices := st.choices ++ parsed.choices,
        prompts := st.prompts ++ parsed.prompts,
        max_choices := some parsed.max_choices,
        min_choices := some parsed.min_choices }
  else st

/-- Embedding of `build_question_body`. The body element is `None` when the
item has no `<qti-item-body>` child, and iterating `None` raises
`TypeError`. -/
def build_question_body (body : Option Elem) :
    Except PyErr (QuestionBody × List Choice) :=
  match body with
  | none => .error (.typeError "NoneType object is not iterable")
  | some b =>
    let st := b.children.foldl body_step ⟨[], [], [], none, none⟩
    .ok (⟨"", "", "", "", "", "", st.choices, st.max_choices, st.min_choices,
          st.prompts, st.paragraph_block_set⟩, st.choices)

/-! ## Item parser and assessment builder (`qti_to_besser.py`) -/

/-- The result of `open(path, encoding=enc)` + `ET.parse`: success with a
root element, a `UnicodeError`, an XML `ParseError`, or an `OSError`. -/
inductive ReadResult where
  | readOk (root : Elem)
  | unicodeError
  | xmlParseError (msg : String)
  | osError (msg : String)

/-- The file system and XML library, abstracted: file-existence checks and
the two parse entry points used by the converter (`ET.parse(file_path)` in
`build_questions`, where `none` stands for an `ET.ParseError`, and the
encoding-sensitive `open`+`ET.parse` in `qti_to_besser`). -/
structure FS where
  is_file : String → Bool
  file_size : String → Nat
  path_exists : String → Bool
  parse_file : String → Option Elem
  read_root : String → String → ReadResult

/-- Embedding of `os.path.join(base_path, href)` for relative hrefs. -/
def os_path_join (base href : String) : String :=
  if base == "" then href
  else if href.data.head? == some '/' then href
  else if base.data.getLast? == some '/' then base ++ href
  else base ++ "/" ++ href

/-- Embedding of `os.path.dirname` (for the paths the converter builds):
everything before the last separator, or empty when there is none. -/
def os_path_dirname (p : String) : String :=
  let rev := p.data.reverse
  if rev.contains '/' then
    String.mk (((rev.dropWhile (fun c => c != '/')).drop 1).reverse)
  else ""

/-- The XML namespace-qualified key of the `lang` attribute. -/
def xmlLangKey : String := "\x7bhttp://www.w3.org/XML/1998/namespace\x7dlang"

/-- Embedding of the shared per-item construction in `build_questions`
(CASE 1 reads these fields from the referenced file's root, CASE 2 from the
embedded element; the question's own `identifier` always comes from the
reference/embedded element's attribute). The body is built first, then the
response declarations against its choices, then the feedbacks. -/
def build_item (identifier : String) (item_root : Elem) :
    Except PyErr Question :=
  let title := attrGet item_root.attrs "title" identifier
  let adaptive := attrLookup item_root.attrs "adaptive"
  let time_dependent := attrLookup item_root.attrs "time-dependent"
  let language := attrGet item_root.attrs xmlLangKey "en"
  let response_set := item_root.children.filter
    (fun c => localName c.tag == "qti-response-declaration")
  let feedback_set := item_root.children.filter
    (fun c => localName c.tag == "qti-modal-feedback")
  let body := (item_root.children.filter
    (fun c => localName c.tag == "qti-item-body")).getLast?
  match build_question_body body with
  | .error e => .error e
  | .ok (bodyObj, choices) =>
    match build_response_declaration response_set choices with
    | .error e => .error e
    | .ok responses =>
      match build_feedbacks feedback_set with
      | .error e => .error e
      | .ok feedbacks =>
        .ok ⟨identifier, title, bodyObj, responses, feedbacks, "", language,
             "", "", adaptive, time_dependent, ""⟩

/-- Embedding of `build_questions`. CASE 1 (an `href` attribute is present)
resolves the path against `base_path`; a missing file or an `ET.ParseError`
is logged and skipped, while exceptions raised during item construction are
not caught. CASE 2 (embedded item) catches `ET.ParseError` and
`AttributeError` (logged and skipped); other exceptions propagate. -/
def build_questions (fs : FS) (base_path : String) :
    List Elem → Except PyErr (List Question)
  | [] => .ok []
  | question :: rest =>
    let identifier := attrGet question.attrs "identifier" "UNDEFINED"
    match attrLookup question.attrs "href" with
    | some href =>
      let file_path := os_path_join base_path href
      if fs.path_exists file_path then
        match fs.parse_file file_path with
        | none => build_questions fs base_path rest
        | some root =>
          match build_item identifier root with
          | .error e => .error e
          | .ok q_obj =>
            match build_questions fs base_path rest with
            | .error e => .error e
            | .ok qs => .ok (q_obj :: qs)
      else build_questions fs base_path rest
    | none =>
      match build_item identifier question with
      | .error (.attributeError _) => build_questions fs base_path rest
      | .error e => .error e
      | .ok q_obj =>
        match build_questions fs base_path rest with
        | .error e => .error e
        | .ok qs => .ok (q_obj :: qs)

/-- Embedding of `build_assessment_sections`: per section, collect the
`qti-assessment-item-ref`/`qti-assessment-item` children (the `questions`
set is reset for each section) and build its questions. -/
def build_assessment_sections (fs : FS) (base_path : String) :
    List Elem → Except PyErr (List AssessmentSection)
  | [] => .ok []
  | sec :: rest =>
    let questions := sec.children.filter (fun c =>
      localName c.tag == "qti-assessment-item-ref" ||
      localName c.tag == "qti-assessment-item")
    match build_questions fs base_path questions with
    | .error e => .error e
    | .ok qs =>
      match build_assessment_sections fs base_path rest with
      | .error e => .error e
      | .ok secs =>
        .ok (.mk (attrGet sec.attrs "identifier" "UNDEFINED")
              (attrGet sec.attrs "title" "UNDEFINED") "" [] qs
              "" "" "" "" "" :: secs)

/-- The `qti-assessment-section` children of one `qti-test-part` element. -/
def section_children (part : Elem) : List Elem :=
  part.children.filter (fun c => localName c.tag == "qti-assessment-section")

/-- Embedding of `build_assessment_parts`' loop: the `assessment_sections`
accumulator is created once before the loop and never reset, so each part is
built from the sections collected so far. -/
def build_assessment_parts_loop (fs : FS) (base_path : String)
    (assessment_sections : List Elem) :
    List Elem → Except PyErr (List AssessmentPart)
  | [] => .ok []
  | part :: rest =>
    match build_assessment_sections fs base_path
        (assessment_sections ++ section_children part) with
    | .error e => .error e
    | .ok built =>
      match build_assessment_parts_loop fs base_path
          (assessment_sections ++ section_children part) rest with
      | .error e => .error e
      | .ok parts =>
        .ok (⟨attrGet part.attrs "identifier" "UNDEFINED",
              attrGet part.attrs "title" "UNDEFINED", "", built,
              attrGet part.attrs "navigation-mode" "UNDEFINED",
              attrGet part.attrs "submission-mode" "UNDEFINED", ""⟩ :: parts)

/-- Embedding of `build_assessment_parts`. -/
def build_assessment_parts (fs : FS) (base_path : String)
    (assessment_parts : List Elem) : Except PyErr (List AssessmentPart) :=
  build_assessment_parts_loop fs base_path [] assessment_parts

/-- Embedding of the encoding list tried by `qti_to_besser`:
`[encoding, "utf-16"] if encoding != "utf-16" else [encoding, "utf-8"]`. -/
def tried_encodings (encoding : String) : List String :=
  if encoding != "utf-16" then [encoding, "utf-16"] else [encoding, "utf-8"]

/-- The alternate of an encoding, as the spec words it. -/
def alternate_encoding (encoding : String) : String :=
  if encoding == "utf-16" then "utf-8" else "utf-16"

/-- Embedding of `qti_to_besser`'s read loop: a success breaks with the
root; a `UnicodeError` tries the next encoding; a `ParseError` or `OSError`
returns `None` at once, as does exhausting the encodings. -/
def read_phase (fs : FS) (xml_path : String) : List String → Option Elem
  | [] => none
  | enc :: rest =>
    match fs.read_root xml_path enc with
    | .readOk root => some root
    | .unicodeError => read_phase fs xml_path rest
    | .xmlParseError _ => none
    | .osError _ => none

/-- Embedding of the model construction after a successful read in
`qti_to_besser`: collect the `qti-test-part` children, resolve the base
path, and assemble the `AssessmentDefinition`. -/
def build_definition (fs : FS) (xml_path : String) (root : Elem) :
    Except PyErr AssessmentDefinition :=
  let assessment_parts := root.children.filter
    (fun c => localName c.tag == "qti-test-part")
  let base_path := os_path_dirname xml_path
  match build_assessment_parts fs base_path assessment_parts with
  | .error e => .error e
  | .ok parts =>
    .ok ⟨attrGet root.attrs "identifier" "UNDEFINED",
         attrGet root.attrs "title" "UNDEFINED", "", parts, "", "", ""⟩

/-- Embedding of `qti_to_besser`: `.ok none` models the handled failures
that return `None` (missing/empty file, both decode attempts failing, or a
parse/OS error), and `.error` models an uncaught exception escaping the
builder. -/
def qti_to_besser (fs : FS) (xml_path : String) (encoding : String) :
    Except PyErr (Option AssessmentDefinition) :=
  if !fs.is_file xml_path || fs.file_size xml_path == 0 then .ok none
  else
    match read_phase fs xml_path (tried_encodings encoding) with
    | none => .ok none
    | some root =>
      match build_definition fs xml_path root with
      | .error e => .error e
      | .ok defn => .ok (some defn)

/-- The plain-text form of a `ParagraphBlock` is populated (non-`None` and
non-empty). -/
def textPopulated (b : ParagraphBlock) : Bool :=
  b.text.getD "" != ""

/-- The inline-element form of a `ParagraphBlock` is populated. -/
def inlinePopulated (b : ParagraphBlock) : Bool :=
  !(b.inline_elements.getD []).isEmpty

/-- The quote-block form of a `ParagraphBlock` is populated. -/
def quotePopulated (b : ParagraphBlock) : Bool :=
  !(b.quote_blocks.getD []).isEmpty

/-- How many of the three content forms are populated. -/
def populated_form_count (b : ParagraphBlock) : Nat :=
  (if textPopulated b then 1 else 0) + (if inlinePopulated b then 1 else 0)
    + (if quotePopulated b then 1 else 0)

/-- The content-form invariant the parser actually maintains: the quote-block
form excludes the other two, and the plain-text and inline forms can only be
simultaneously populated when every inline element is a text-entry marker. -/
def paragraph_content_inv (b : ParagraphBlock) : Prop :=
  (quotePopulated b = true → textPopulated b = false ∧ inlinePopulated b = false) ∧
  (textPopulated b = true → inlinePopulated b = true →
    (b.inline_elements.getD []).all InlineElement.isTextEntry = true)

/-- The paragraph blocks nested inside a block's quote blocks. -/
def inner_blocks (b : ParagraphBlock) : List ParagraphBlock :=
  (b.quote_blocks.getD []).flatMap BlockQuote.paragraphs

/-- The paragraph blocks of a prompt. -/
def prompt_blocks (pr : Prompt) : List ParagraphBlock :=
  pr.paragraphs.getD []

/-- Every `ParagraphBlock` reachable from a parsed `QuestionBody`: its
paragraph list, the blocks inside their quote blocks, and the blocks of its
prompts. -/
def body_blocks (qb : QuestionBody) : List ParagraphBlock :=
  qb.paragraphs ++ qb.paragraphs.flatMap inner_blocks
    ++ qb.prompts.flatMap prompt_blocks

/-- Every `ParagraphBlock` reachable from a `build_question_body` loop
state. -/
def state_blocks (st : BodyState) : List ParagraphBlock :=
  st.paragraph_block_set ++ st.paragraph_block_set.flatMap inner_blocks
    ++ st.prompts.flatMap prompt_blocks

/-- Whether a paragraph element contains an inline text-entry widget among
its preorder nodes. -/
def contains_widget (p_elem : Elem) : Bool :=
  p_elem.iterNodes.any (fun n => localName n.tag == "qti-text-entry-interaction")

/-- The concatenated text of a node list in `parse_paragraph`'s traversal
order: each node contributes its text then its tail, parents before
children. -/
def node_texts_concat : List Elem → String
  | [] => ""
  | n :: ns => n.text.getD "" ++ n.tail.getD "" ++ node_texts_concat ns

/-- `parse_paragraph`'s flattened text of a paragraph element. -/
def preorder_flat_text (p_elem : Elem) : String :=
  node_texts_concat p_elem.iterNodes

/-! ## Concrete example data -/

/-- A `<qti-correct-response>` referencing identifiers `A` and `C`. -/
def cr_elem_AC : Elem := .mk "qti-correct-response" [] none
  [.mk "qti-value" [] (some "A") [] none,
   .mk "qti-value" [] (some "C") [] none] none

/-- A parsed choice set `{A: "x", B: "y"}`. -/
def choices_AB : List Choice := [⟨"A", "x"⟩, ⟨"B", "y"⟩]

/-- A `<p>` with plain text `Hello` and no widget. -/
def hello_p : Elem := .mk "p" [] (some "Hello") [] none

/-- A body fragment with the single paragraph `hello_p`. -/
def hello_body : Elem := .mk "qti-item-body" [] none [hello_p] none

/-- The `QuestionBody` parsed from `hello_body`. -/
def hello_qb : QuestionBody :=
  ⟨"", "", "", "", "", "", [], none, none, [],
   [.mk none none (some [.textRun "Hello"])]⟩

/-- An empty `<p>` (no text, no children). -/
def empty_p : Elem := .mk "p" [] none [] none

/-- A body fragment with a single empty paragraph. -/
def empty_p_body : Elem := .mk "qti-item-body" [] none [empty_p] none

/-- A text-entry widget with response identifier `R1` and tail text `B`. -/
def widget_tail_B : Elem :=
  .mk "qti-text-entry-interaction" [("response-identifier", "R1")] none []
    (some "B")

/-- A `<p>` containing text `A`, a widget, and trailing text `B` (the
widget's tail). -/
def widget_p : Elem := .mk "p" [] (some "A") [widget_tail_B] none

/-- A `<qti-simple-choice>` whose source text ` x ` carries surrounding
whitespace. -/
def spaced_choice_elem : Elem :=
  .mk "qti-simple-choice" [("identifier", "A")] (some " x ") [] none

/-- A `<qti-simple-choice>` with empty source text. -/
def empty_choice_elem : Elem :=
  .mk "qti-simple-choice" [("identifier", "E")] none [] none

/-- A `<qti-modal-feedback>` with `showHide="show"` and one paragraph. -/
def fb_show_elem : Elem :=
  .mk "qti-modal-feedback" [("identifier", "FB1"), ("showHide", "show")] none
    [.mk "p" [] (some "Correct!") [] none] none

/-- Two test parts sharing the title `Part A`. -/
def dup_part_1 : TestPart :=
  ⟨"P1", some "Part A", none, none, [], .Linear, .Individual⟩

def dup_part_2 : TestPart :=
  ⟨"P2", some "Part A", none, none, [], .Nonlinear, .Simultaneous⟩

/-- Two test sections sharing the title `Sec A`. -/
def dup_sec_1 : TestSection := .mk "S1" "Sec A" [] true none false false true none []

def dup_sec_2 : TestSection := .mk "S2" "Sec A" [] false none false false true none []

/-- A well-formed referenced item file: title `T1`, a body with one
paragraph, no response declarations and no feedback. -/
def item_root_Q1 : Elem := .mk "qti-assessment-item" [("title", "T1")] none
  [.mk "qti-item-body" [] none [.mk "p" [] (some "Q?") [] none] none] none

/-- The `Question` built from `item_root_Q1` under identifier `Q1`. -/
def question_Q1 : Question :=
  ⟨"Q1", "T1",
   ⟨"", "", "", "", "", "", [], none, none, [],
    [.mk none none (some [.textRun "Q?"])]⟩,
   [], [], "", "en", "", "", none, none, ""⟩

/-- An item reference to `items/Q1.xml` with identifier `Q1`. -/
def ref_Q1 : Elem :=
  .mk "qti-assessment-item-ref"
    [("identifier", "Q1"), ("href", "items/Q1.xml")] none [] none

/-- An item reference to a missing file. -/
def ref_Q2 : Elem :=
  .mk "qti-assessment-item-ref"
    [("identifier", "Q2"), ("href", "items/Q2.xml")] none [] none

/-- A file system where only `base/items/Q1.xml` exists and parses to
`item_root_Q1`, and where text decoding succeeds only for `utf-16`
(producing an empty `qti-assessment-test` root named `T`). -/
def fs_Q1 : FS where
  is_file := fun _ => true
  file_size := fun _ => 1
  path_exists := fun p => p == "base/items/Q1.xml"
  parse_file := fun p =>
    if p == "base/items/Q1.xml" then some item_root_Q1 else none
  read_root := fun _ enc =>
    if enc == "utf-16" then
      .readOk (.mk "qti-assessment-test" [("identifier", "T")] none [] none)
    else .unicodeError

/-- A referenced item file that is valid XML but contains a modal feedback. -/
def item_root_QF : Elem := .mk "qti-assessment-item" [] none
  [.mk "qti-item-body" [] none [] none,
   .mk "qti-modal-feedback" [("identifier", "FB"), ("showHide", "show")] none
     [.mk "p" [] (some "OK") [] none] none] none

/-- An item reference to `items/QF.xml` with identifier `QF`. -/
def ref_QF : Elem :=
  .mk "qti-assessment-item-ref"
    [("identifier", "QF"), ("href", "items/QF.xml")] none [] none

/-- A file system where only `base/items/QF.xml` exists, parsing to
`item_root_QF`. -/
def fs_QF : FS where
  is_file := fun _ => true
  file_size := fun _ => 1
  path_exists := fun p => p == "base/items/QF.xml"
  parse_file := fun p =>
    if p == "base/items/QF.xml" then some item_root_QF else none
  read_root := fun _ _ => .unicodeError

/-- A file system on which both decode attempts fail. -/
def fs_undecodable : FS where
  is_file := fun _ => true
  file_size := fun _ => 1
  path_exists := fun _ => false
  parse_file := fun _ => none
  read_root := fun _ _ => .unicodeError

/-- Two `qti-test-part` elements, each with one (empty) assessment
section. -/
def sec_S1 : Elem :=
  .mk "qti-assessment-section" [("identifier", "S1"), ("title", "Sec1")] none
    [] none

def sec_S2 : Elem :=
  .mk "qti-assessment-section" [("identifier", "S2"), ("title", "Sec2")] none
    [] none

def part_P1 : Elem := .mk "qti-test-part" [("identifier", "P1")] none [sec_S1] none

def part_P2 : Elem := .mk "qti-test-part" [("identifier", "P2")] none [sec_S2] none

/-- The `AssessmentSection` built from `sec_S1`. -/
def built_S1 : AssessmentSection := .mk "S1" "Sec1" "" [] [] "" "" "" "" ""

/-- The `AssessmentSection` built from `sec_S2`. -/
def built_S2 : AssessmentSection := .mk "S2" "Sec2" "" [] [] "" "" "" "" ""

/-- The two `AssessmentPart`s built from `[part_P1, part_P2]`: the second
one also carries the first part's section. -/
def built_P1 : AssessmentPart :=
  ⟨"P1", "UNDEFINED", "", [built_S1], "UNDEFINED", "UNDEFINED", ""⟩

def built_P2 : AssessmentPart :=
  ⟨"P2", "UNDEFINED", "", [built_S1, built_S2], "UNDEFINED", "UNDEFINED", ""⟩

theorem dedup_length_eq_iff {α : Type} [DecidableEq α] (l : List α) :
    l.dedup.length = l.length ↔ l.Nodup := by
  constructor
  · intro h
    exact List.dedup_eq_self.mp ((List.dedup_sublist l).eq_of_length h)
  · intro h
    rw [List.dedup_eq_self.mpr h]

/-! ## C5 -/

/-- C5: constructing a `TestDefinition` whose parts contain two `TestPart`s
sharing the same title, or a `TestPart` whose sections contain two
`TestSection`s sharing the same title, fails with a duplicate-name error
(`ValueError`) and produces no model object. -/
theorem duplicate_sibling_titles_rejected :
    (∀ (identifier title : String) (parts : List TestPart)
       (cn tn tv de : Option String),
       ¬ (parts.map TestPart.title).Nodup →
       TestDefinition.make identifier title parts cn tn tv de =
         .error "A test definition cannot have two parts with the same name") ∧
    (∀ (identifier : String) (sections : List TestSection)
       (nav : NavigationModeEnum) (sub : SubmissionModeEnum)
       (t cn de : Option String),
       ¬ (sections.map TestSection.title).Nodup →
       TestPart.make identifier sections nav sub t cn de =
         .error "A test part cannot have two sections with the same name") := by
  constructor
  · intro i t parts cn tn tv de h
    unfold TestDefinition.make
    rw [if_pos]
    intro hlen
    exact h ((dedup_length_eq_iff _).mp hlen.symm)
  · intro i sections nav sub t cn de h
    unfold TestPart.make
    rw [if_pos]
    intro hlen
    exact h ((dedup_length_eq_iff _).mp hlen.symm)

/-- Witness for C5: two parts titled `Part A` make `TestDefinition` fail, and
two sections titled `Sec A` make `TestPart` fail. -/
theorem duplicate_sibling_titles_rejected_witness :
    TestDefinition.make "T" "Quiz" [dup_part_1, dup_part_2] none none none none =
      .error "A test definition cannot have two parts with the same name" ∧
    TestPart.make "P" [dup_sec_1, dup_sec_2] .Linear .Individual none none none =
      .error "A test part cannot have two sections with the same name" :=
  ⟨duplicate_sibling_titles_rejected.1 "T" "Quiz" [dup_part_1, dup_part_2]
     none none none none (by decide),
   duplicate_sibling_titles_rejected.2 "P" [dup_sec_1, dup_sec_2]
     .Linear .Individual none none none (by decide)⟩

/-! ## C3 -/

/-- C3: the visibility computation in `build_feedbacks` matches the claim
(`False if show_hide == "show" else True`), but the constructor call passes
the keyword `is_hidden` while `ModalFeedback.__init__` declares `is_hide`,
so Python raises `TypeError` for every modal-feedback element and no
`ModalFeedback` is ever built: evaluating the embedded `build_feedbacks` on
an element with `showHide="show"` yields the `TypeError`, not a visible
feedback. -/
theorem modal_feedback_constructor_type_error :
    build_feedbacks [fb_show_elem] = .error (.typeError
      "ModalFeedback.__init__() got an unexpected keyword argument is_hidden") :=
  rfl

/-! ## C8 -/

/-- C8 (amended): each simple-choice element yields exactly one `Choice`
whose text is the element's flattened source text with surrounding
whitespace stripped (not verbatim); an empty (or whitespace-only) source
text is preserved as the empty string — the choice is still produced, not
collapsed to an absent value. -/
theorem choice_text_stripped_and_empty_preserved :
    ∀ (simple_choices : List Elem),
      (build_choice simple_choices).map Choice.text =
        simple_choices.map (fun e => pyStrip e.itertext) ∧
      (build_choice simple_choices).map Choice.identifier =
        simple_choices.map (fun e => attrGet e.attrs "identifier" "UNDEFINED") ∧
      (∀ e ∈ simple_choices, pyStrip e.itertext = "" →
        Choice.mk (attrGet e.attrs "identifier" "UNDEFINED") "" ∈
          build_choice simple_choices) := by
  intro scs
  refine ⟨?_, ?_, ?_⟩
  · simp [build_choice, List.map_map]
  · simp [build_choice, List.map_map]
  · intro e he h
    have : Choice.mk (attrGet e.attrs "identifier" "UNDEFINED")
        (pyStrip e.itertext) ∈ build_choice scs :=
      List.mem_map_of_mem _ he
    rwa [h] at this

/-- C8 counterexample: a choice whose source text is ` x ` parses to text
`x`, so `Choice.text` is not the verbatim source text. -/
theorem choice_text_not_verbatim_counterexample :
    build_choice [spaced_choice_elem] = [⟨"A", "x"⟩] ∧
    spaced_choice_elem.itertext = " x " ∧ ("x" : String) ≠ " x " :=
  ⟨rfl, rfl, by decide⟩

/-- Witness for C8: an empty-text simple choice still yields a `Choice`,
with text equal to the empty string. -/
theorem choice_text_stripped_witness :
    (build_choice [empty_choice_elem]).map Choice.text =
      [empty_choice_elem].map (fun e => pyStrip e.itertext) ∧
    Choice.mk "E" "" ∈ build_choice [empty_choice_elem] :=
  ⟨(choice_text_stripped_and_empty_preserved [empty_choice_elem]).1,
   (choice_text_stripped_and_empty_preserved [empty_choice_elem]).2.2
     empty_choice_elem (List.mem_singleton_self _) rfl⟩

/-! ## C1 -/

/-- Membership invariant of `build_correct_choices`' loop: on success, the
result holds the accumulator plus, for each referenced identifier, the first
parsed choice bearing it. -/
theorem build_correct_choices_loop_mem (A : List Choice) :
    ∀ (vs : List Elem) (acc r : List Choice),
      build_correct_choices_loop A acc vs = .ok r →
      ∀ c, c ∈ r ↔ c ∈ acc ∨ ∃ cid, cid ∈ referenced_ids_of vs ∧
        A.find? (fun x => x.identifier == cid) = some c := by
  intro vs
  induction vs with
  | nil =>
    intro acc r h c
    simp only [build_correct_choices_loop, Except.ok.injEq] at h
    subst h
    simp [referenced_ids_of]
  | cons v vs ih =>
    intro acc r h c
    by_cases htag : localName v.tag == "qti-value"
    · cases htext : v.text with
      | none =>
        simp only [build_correct_choices_loop, htag, if_true, htext] at h
        exact absurd h (by simp)
      | some t =>
        cases hfind : A.find? (fun x => x.identifier == pyStrip t) with
        | none =>
          simp only [build_correct_choices_loop, htag, if_true, htext, hfind] at h
          rw [ih _ _ h c]
          have hrids : referenced_ids_of (v :: vs) =
              pyStrip t :: referenced_ids_of vs := by
            simp [referenced_ids_of, List.filter_cons, htag, htext]
          rw [hrids]
          constructor
          · rintro (hacc | ⟨cid, hcid, hf⟩)
            · exact Or.inl hacc
            · exact Or.inr ⟨cid, List.mem_cons_of_mem _ hcid, hf⟩
          · rintro (hacc | ⟨cid, hcid, hf⟩)
            · exact Or.inl hacc
            · rcases List.mem_cons.mp hcid with hceq | hcm
              · subst hceq
                rw [hfind] at hf
                exact absurd hf (by simp)
              · exact Or.inr ⟨cid, hcm, hf⟩
        | some m =>
          simp only [build_correct_choices_loop, htag, if_true, htext, hfind] at h
          rw [ih _ _ h c]
          have hrids : referenced_ids_of (v :: vs) =
              pyStrip t :: referenced_ids_of vs := by
            simp [referenced_ids_of, List.filter_cons, htag, htext]
          rw [hrids]
          constructor
          · rintro (hacc | ⟨cid, hcid, hf⟩)
            · by_cases hm : m ∈ acc
              · simp only [if_pos hm] at hacc
                exact Or.inl hacc
              · simp only [if_neg hm, List.mem_append, List.mem_singleton] at hacc
                rcases hacc with hacc | rfl
                · exact Or.inl hacc
                · exact Or.inr ⟨pyStrip t, List.mem_cons_self _ _, hfind⟩
            · exact Or.inr ⟨cid, List.mem_cons_of_mem _ hcid, hf⟩
          · rintro (hacc | ⟨cid, hcid, hf⟩)
            · left
              by_cases hm : m ∈ acc
              · simpa [if_pos hm] using hacc
              · simp [if_neg hm, List.mem_append, hacc]
            · rcases List.mem_cons.mp hcid with hceq | hcm
              · subst hceq
                rw [hfind] at hf
                have hcm2 : c = m := by
                  injection hf with hf
                  exact hf.symm
                subst hcm2
                left
                by_cases hm : c ∈ acc
                · simp [if_pos hm, hm]
                · simp [if_neg hm]
              · exact Or.inr ⟨cid, hcm, hf⟩
    · simp only [build_correct_choices_loop, htag, if_false, Bool.false_eq_true] at h
      rw [ih _ _ h c]
      have hrids : referenced_ids_of (v :: vs) = referenced_ids_of vs := by
        simp [referenced_ids_of, List.filter_cons, htag]
      rw [hrids]

/-- C1: a successfully resolved correct-choice set contains only parsed
choices whose identifiers are referenced, and an identifier is represented
in the result exactly when it is referenced and some parsed choice bears it
— unmatched identifiers are dropped and no choice is fabricated. -/
theorem correct_choice_resolution :
    ∀ (correct_response_elem : Elem) (all_choices r : List Choice),
      build_correct_choices correct_response_elem all_choices = .ok r →
      (∀ c ∈ r, c ∈ all_choices ∧
        c.identifier ∈ referenced_ids correct_response_elem) ∧
      (∀ cid ∈ referenced_ids correct_response_elem,
        ((∃ c ∈ all_choices, c.identifier = cid) ↔ ∃ c ∈ r, c.identifier = cid)) := by
  intro e A r h
  have hmem := build_correct_choices_loop_mem A e.children [] r h
  constructor
  · intro c hc
    rcases (hmem c).mp hc with hfalse | ⟨cid, hcid, hf⟩
    · exact absurd hfalse (List.not_mem_nil c)
    · have hcA : c ∈ A := List.mem_of_find?_eq_some hf
      have hp := List.find?_some hf
      have : c.identifier = cid := by simpa using hp
      exact ⟨hcA, this ▸ hcid⟩
  · intro cid hcid
    constructor
    · rintro ⟨c0, hc0A, hc0id⟩
      have hsome : (A.find? (fun x => x.identifier == cid)).isSome := by
        rw [List.find?_isSome]
        exact ⟨c0, hc0A, by simpa using hc0id⟩
      rcases Option.isSome_iff_exists.mp hsome with ⟨c1, hc1⟩
      have hc1r : c1 ∈ r := (hmem c1).mpr (Or.inr ⟨cid, hcid, hc1⟩)
      have hp := List.find?_some hc1
      exact ⟨c1, hc1r, by simpa using hp⟩
    · rintro ⟨c1, hc1r, hc1id⟩
      rcases (hmem c1).mp hc1r with hfalse | ⟨cid2, _, hf⟩
      · exact absurd hfalse (List.not_mem_nil c1)
      · exact ⟨c1, List.mem_of_find?_eq_some hf, hc1id⟩

/-- Witness for C1: referencing `{A, C}` against choices `{A: "x", B: "y"}`
resolves to exactly `{A}`. -/
theorem correct_choice_resolution_witness :
    build_correct_choices cr_elem_AC choices_AB = .ok [⟨"A", "x"⟩] ∧
    ((∀ c ∈ [(⟨"A", "x"⟩ : Choice)], c ∈ choices_AB ∧
        c.identifier ∈ referenced_ids cr_elem_AC) ∧
     (∀ cid ∈ referenced_ids cr_elem_AC,
        ((∃ c ∈ choices_AB, c.identifier = cid) ↔
         ∃ c ∈ [(⟨"A", "x"⟩ : Choice)], c.identifier = cid))) :=
  ⟨rfl, correct_choice_resolution cr_elem_AC choices_AB [⟨"A", "x"⟩] rfl⟩

/-! ## C2 -/

/-- The block built for a body `<p>` satisfies the content-form invariant
and owns no quote blocks. -/
theorem paragraph_block_of_p_inv (child : Elem) :
    paragraph_content_inv (paragraph_block_of_p child) ∧
    inner_blocks (paragraph_block_of_p child) = [] := by
  have hdef : paragraph_block_of_p child =
      (if (parse_paragraph child != []) = true then
        ParagraphBlock.mk none none (some (parse_paragraph child))
      else ParagraphBlock.mk (some (pyStrip child.itertext)) none (some [])) := rfl
  rw [hdef]
  by_cases hcond : (parse_paragraph child != []) = true
  · rw [if_pos hcond]
    exact ⟨⟨by simp [quotePopulated, ParagraphBlock.quote_blocks],
      fun ht => absurd ht (by simp [textPopulated, ParagraphBlock.text])⟩,
      by simp [inner_blocks, ParagraphBlock.quote_blocks]⟩
  · rw [if_neg hcond]
    exact ⟨⟨by simp [quotePopulated, ParagraphBlock.quote_blocks],
      fun _ hi => absurd hi (by simp [inlinePopulated, ParagraphBlock.inline_elements])⟩,
      by simp [inner_blocks, ParagraphBlock.quote_blocks]⟩

/-- A `build_paragraph_block` block satisfies the invariant and owns no
quote blocks. -/
theorem build_paragraph_block_inv (t : String) :
    paragraph_content_inv (build_paragraph_block t) ∧
    inner_blocks (build_paragraph_block t) = [] :=
  ⟨⟨by simp [quotePopulated, build_paragraph_block, ParagraphBlock.quote_blocks],
    fun _ hi => absurd hi
      (by simp [inlinePopulated, build_paragraph_block, ParagraphBlock.inline_elements])⟩,
   by simp [inner_blocks, build_paragraph_block, ParagraphBlock.quote_blocks]⟩

/-- A block built for a paragraph inside a blockquote satisfies the
invariant: its text is only kept when the inline elements are absent or all
text-entry markers. -/
theorem blockquote_inner_block_inv (p : Elem) :
    paragraph_content_inv (blockquote_inner_block p) := by
  have hdef : blockquote_inner_block p = .mk
      (if (parse_paragraph p).isEmpty ||
          (parse_paragraph p).all InlineElement.isTextEntry then
        some (pyStrip p.itertext) else none)
      none (some (parse_paragraph p)) := rfl
  rw [hdef]
  by_cases hcond : ((parse_paragraph p).isEmpty ||
      (parse_paragraph p).all InlineElement.isTextEntry) = true
  · rw [if_pos hcond]
    refine ⟨by simp [quotePopulated, ParagraphBlock.quote_blocks], ?_⟩
    intro _ hi
    simp only [inlinePopulated, ParagraphBlock.inline_elements, Option.getD_some,
      Bool.not_eq_eq_eq_not, Bool.not_false] at hi
    simp only [ParagraphBlock.inline_elements, Option.getD_some]
    have hcond2 : (parse_paragraph p).isEmpty = true ∨
        (parse_paragraph p).all InlineElement.isTextEntry = true := by
      simpa using hcond
    rcases hcond2 with hempty | hall
    · rw [List.isEmpty_iff] at hempty
      rw [hempty] at hi
      simp at hi
    · exact hall
  · rw [if_neg hcond]
    refine ⟨by simp [quotePopulated, ParagraphBlock.quote_blocks], ?_⟩
    intro ht
    exact absurd ht (by simp [textPopulated, ParagraphBlock.text])

/-- Blocks of the `<div>` branch satisfy the invariant, as do the inner
blocks of their quote blocks. -/
theorem div_branch_blocks_inv (child : Elem) :
    ∀ b ∈ div_branch_blocks child,
      paragraph_content_inv b ∧ ∀ ib ∈ inner_blocks b, paragraph_content_inv ib := by
  intro b hb
  simp only [div_branch_blocks, List.mem_map] at hb
  rcases hb with ⟨quote, hq, rfl⟩
  refine ⟨⟨fun _ => ⟨by simp [textPopulated, ParagraphBlock.text],
    by simp [inlinePopulated, ParagraphBlock.inline_elements]⟩,
    fun ht => absurd ht (by simp [textPopulated, ParagraphBlock.text])⟩, ?_⟩
  intro ib hib
  simp only [inner_blocks, ParagraphBlock.quote_blocks, Option.getD_some,
    List.flatMap_cons, List.flatMap_nil, List.append_nil,
    BlockQuote.paragraphs, List.mem_map] at hib
  rcases hib with ⟨p, hp, rfl⟩
  exact blockquote_inner_block_inv p

/-- Prompt paragraphs collected by `build_choice_interaction` satisfy the
invariant. -/
theorem choice_interaction_prompts_inv (child : Elem) :
    ∀ pr ∈ (build_choice_interaction child).prompts,
      ∀ b ∈ prompt_blocks pr, paragraph_content_inv b := by
  intro pr hpr b hb
  simp only [build_choice_interaction, List.mem_map] at hpr
  rcases hpr with ⟨q, hq, rfl⟩
  simp only [prompt_blocks, Option.getD_some, prompt_paragraphs, List.mem_map] at hb
  rcases hb with ⟨g, hg, rfl⟩
  exact ⟨fun hq2 => absurd hq2 (by simp [quotePopulated, ParagraphBlock.quote_blocks]),
    fun _ hi => absurd hi
      (by simp [inlinePopulated, ParagraphBlock.inline_elements])⟩

/-- Prompts of an extended-text interaction carry no paragraph blocks. -/
theorem ext_text_prompts_blocks (child : Elem) :
    ∀ pr ∈ (build_extended_text_interaction child).prompts,
      prompt_blocks pr = [] := by
  intro pr hpr
  simp only [build_extended_text_interaction, List.mem_map] at hpr
  rcases hpr with ⟨e, he, rfl⟩
  simp [prompt_blocks]

/-- Paragraph blocks accumulated while scanning modal feedbacks satisfy the
invariant. -/
theorem feedback_paragraph_blocks_inv (feedbacks : List Elem) :
    ∀ b ∈ feedback_paragraph_blocks feedbacks, paragraph_content_inv b := by
  intro b hb
  simp only [feedback_paragraph_blocks, List.mem_flatMap, List.mem_filterMap] at hb
  rcases hb with ⟨elem, _, c, _, hc⟩
  by_cases hne : (pyStrip c.itertext != "") = true
  · rw [if_pos hne] at hc
    cases hc
    exact ⟨fun hq => absurd hq (by simp [quotePopulated, ParagraphBlock.quote_blocks]),
      fun _ hi => absurd hi
        (by simp [inlinePopulated, ParagraphBlock.inline_elements])⟩
  · rw [if_neg hne] at hc
    cases hc

/-- Decomposition of membership after appending paragraph blocks to the
loop state. -/
theorem state_blocks_mem_para {st : BodyState} {new : List ParagraphBlock}
    {b : ParagraphBlock}
    (hb : b ∈ state_blocks { st with paragraph_block_set :=
      st.paragraph_block_set ++ new }) :
    b ∈ state_blocks st ∨ b ∈ new ∨ ∃ nb ∈ new, b ∈ inner_blocks nb := by
  simp only [state_blocks, List.mem_append, List.mem_flatMap] at hb ⊢
  aesop

theorem state_blocks_mem_prompts {st : BodyState} {newp : List Prompt}
    {b : ParagraphBlock}
    (hb : b ∈ state_blocks { st with prompts := st.prompts ++ newp }) :
    b ∈ state_blocks st ∨ ∃ pr ∈ newp, b ∈ prompt_blocks pr := by
  simp only [state_blocks, List.mem_append, List.mem_flatMap] at hb ⊢
  aesop

/-- Decomposition of membership after appending prompts to the loop state
(the paragraph blocks unchanged). -/
theorem state_blocks_mem_prompts2 (st : BodyState) (newp : List Prompt)
    {st' : BodyState} {b : ParagraphBlock}
    (hb : b ∈ state_blocks st')
    (hpbs : st'.paragraph_block_set = st.paragraph_block_set)
    (hpr : st'.prompts = st.prompts ++ newp) :
    b ∈ state_blocks st ∨ ∃ pr ∈ newp, b ∈ prompt_blocks pr := by
  simp only [state_blocks, hpbs, hpr, List.mem_append, List.mem_flatMap] at hb ⊢
  aesop

/-- One `build_question_body` loop step preserves the content-form
invariant of every reachable block. -/
theorem body_step_inv (st : BodyState) (child : Elem)
    (h : ∀ b ∈ state_blocks st, paragraph_content_inv b) :
    ∀ b ∈ state_blocks (body_step st child), paragraph_content_inv b := by
  intro b hb
  unfold body_step at hb
  by_cases hp : localName child.tag = "p"
  · rw [hp] at hb
    norm_num at hb
    rcases state_blocks_mem_para hb with hold | hnew | ⟨nb, hnb, hib⟩
    · exact h b hold
    · rcases List.mem_singleton.mp hnew with rfl
      exact (paragraph_block_of_p_inv child).1
    · rcases List.mem_singleton.mp hnb with rfl
      rw [(paragraph_block_of_p_inv child).2] at hib
      exact absurd hib (List.not_mem_nil b)
  · simp only [beq_iff_eq, hp] at hb
    norm_num at hb
    by_cases hpre : localName child.tag = "pre"
    · rw [hpre] at hb
      norm_num at hb
      rcases state_blocks_mem_para hb with hold | hnew | ⟨nb, hnb, hib⟩
      · exact h b hold
      · rcases List.mem_singleton.mp hnew with rfl
        exact (build_paragraph_block_inv _).1
      · rcases List.mem_singleton.mp hnb with rfl
        rw [(build_paragraph_block_inv _).2] at hib
        exact absurd hib (List.not_mem_nil b)
    · simp only [hpre] at hb
      norm_num at hb
      by_cases hdiv : localName child.tag = "div"
      · rw [hdiv] at hb
        norm_num at hb
        rcases state_blocks_mem_para hb with hold | hnew | ⟨nb, hnb, hib⟩
        · exact h b hold
        · exact (div_branch_blocks_inv child b hnew).1
        · exact (div_branch_blocks_inv child nb hnb).2 b hib
      · simp only [hdiv] at hb
        norm_num at hb
        by_cases hext : localName child.tag = "qti-extended-text-interaction"
        · rw [hext] at hb
          norm_num at hb
          rcases state_blocks_mem_prompts2 st (build_extended_text_interaction child).prompts hb rfl rfl with hold | ⟨pr, hpr, hbpr⟩
          · exact h b hold
          · rw [ext_text_prompts_blocks child pr hpr] at hbpr
            exact absurd hbpr (List.not_mem_nil b)
        · simp only [hext] at hb
          norm_num at hb
          by_cases hci : localName child.tag = "qti-choice-interaction"
          · rw [hci] at hb
            norm_num at hb
            rcases state_blocks_mem_prompts2 st (build_choice_interaction child).prompts hb rfl rfl with hold | ⟨pr, hpr, hbpr⟩
            · exact h b hold
            · exact choice_interaction_prompts_inv child pr hpr b hbpr
          · simp only [hci] at hb
            norm_num at hb
            exact h b hb

/-- The whole `build_question_body` loop preserves the invariant. -/
theorem body_fold_inv : ∀ (children : List Elem) (st : BodyState),
    (∀ b ∈ state_blocks st, paragraph_content_inv b) →
    ∀ b ∈ state_blocks (children.foldl body_step st), paragraph_content_inv b := by
  intro children
  induction children with
  | nil => intro st h; simpa using h
  | cons c cs ih =>
    intro st h
    rw [List.foldl_cons]
    exact ih _ (body_step_inv st c h)

/-- C2 (amended): every ParagraphBlock produced by parsing a body, feedback,
or prompt fragment carries at most one populated content form, with two
deviations from the claim: a whitespace-only source paragraph yields a block
with all three forms empty, and a block-quote inner paragraph whose inline
elements are all text-entry markers may populate the plain-text and inline
forms simultaneously; the quote-block form always excludes the other two. -/
theorem paragraph_content_forms :
    (∀ (body : Elem) (qb : QuestionBody) (chs : List Choice),
       build_question_body (some body) = .ok (qb, chs) →
       ∀ b ∈ body_blocks qb, paragraph_content_inv b) ∧
    (∀ (feedbacks : List Elem) (b : ParagraphBlock),
       b ∈ feedback_paragraph_blocks feedbacks → paragraph_content_inv b) := by
  constructor
  · intro body qb chs h
    simp only [build_question_body, Except.ok.injEq, Prod.mk.injEq] at h
    obtain ⟨hqb, hchs⟩ := h
    subst hqb
    intro b hb
    exact body_fold_inv body.children ⟨[], [], [], none, none⟩
      (by intro b0 hb0; simp [state_blocks] at hb0) b hb
  · exact fun fb b hb => feedback_paragraph_blocks_inv fb b hb

/-- C2 counterexample: parsing a body whose single paragraph is empty
(`<p/>`) produces a ParagraphBlock with zero populated content forms, not
exactly one. -/
theorem paragraph_content_forms_counterexample :
    (build_question_body (some empty_p_body)).map (fun r => body_blocks r.1) =
      .ok [ParagraphBlock.mk (some "") none (some [])] ∧
    populated_form_count (ParagraphBlock.mk (some "") none (some [])) = 0 :=
  ⟨rfl, rfl⟩

/-- Witness for C2: the block parsed from a body with one plain paragraph
satisfies the content-form invariant. -/
theorem paragraph_content_forms_witness :
    build_question_body (some hello_body) = .ok (hello_qb, []) ∧
    paragraph_content_inv (.mk none none (some [.textRun "Hello"])) :=
  ⟨rfl,
   paragraph_content_forms.1 hello_body hello_qb [] rfl
     (.mk none none (some [.textRun "Hello"]))
     (by
       have hbb : body_blocks hello_qb =
           [ParagraphBlock.mk none none (some [.textRun "Hello"])] := rfl
       rw [hbb]
       exact List.mem_singleton_self _)⟩

/-! ## C4 -/

/-- Over widget-free nodes, the `parse_paragraph` fold only accumulates each
node's text and tail, in traversal order. -/
theorem foldl_no_widget : ∀ (L : List Elem) (st : List InlineElement × String),
    (∀ n ∈ L, (localName n.tag == "qti-text-entry-interaction") = false) →
    L.foldl parse_paragraph_step st = (st.1, st.2 ++ node_texts_concat L) := by
  intro L
  induction L with
  | nil =>
    intro st _
    simp [node_texts_concat]
  | cons n ns ih =>
    intro st h
    have hn := h n (List.mem_cons_self n ns)
    have hns : ∀ m ∈ ns, (localName m.tag == "qti-text-entry-interaction") = false :=
      fun m hm => h m (List.mem_cons_of_mem n hm)
    rw [List.foldl_cons, ih _ hns]
    simp only [parse_paragraph_step, hn, Bool.false_eq_true, if_false,
      node_texts_concat]
    simp [String.append_assoc]

/-- C4 (amended): for every paragraph element in a body fragment, the stored
block is the inline form exactly when the scan result is non-empty — which
happens whenever the paragraph contains a widget or any non-blank text, so a
widget-free non-blank paragraph is stored as a single text-run inline
element, not as plain text — and otherwise (no widget, blank text) the
stripped flattened text is stored as plain text; at a widget node the
scanner flushes the pending text and emits a marker, and depends on the
widget's tail only through its truthiness, so the tail's characters (the
trailing text) are dropped, not preserved. -/
theorem paragraph_inline_handling :
    (∀ child : Elem, parse_paragraph child ≠ [] →
      paragraph_block_of_p child = .mk none none (some (parse_paragraph child))) ∧
    (∀ child : Elem, parse_paragraph child = [] →
      paragraph_block_of_p child =
        .mk (some (pyStrip child.itertext)) none (some [])) ∧
    (∀ child : Elem, contains_widget child = false →
      parse_paragraph child =
        (if pyStrip (preorder_flat_text child) != "" then
          [.textRun (pyStrip (preorder_flat_text child))] else [])) ∧
    (∀ (st : List InlineElement × String) (tag : String)
       (attrs : List (String × String)) (txt : Option String) (cs : List Elem)
       (t t' : Option String),
       (localName tag == "qti-text-entry-interaction") = true →
       strTruthy t = strTruthy t' →
       parse_paragraph_step st (.mk tag attrs txt cs t) =
         parse_paragraph_step st (.mk tag attrs txt cs t')) := by
  refine ⟨?_, ?_, ?_, ?_⟩
  · intro child h
    have hdef : paragraph_block_of_p child =
        (if (parse_paragraph child != []) = true then
          ParagraphBlock.mk none none (some (parse_paragraph child))
        else ParagraphBlock.mk (some (pyStrip child.itertext)) none (some [])) :=
      rfl
    rw [hdef, if_pos (by simpa using h)]
  · intro child h
    have hdef : paragraph_block_of_p child =
        (if (parse_paragraph child != []) = true then
          ParagraphBlock.mk none none (some (parse_paragraph child))
        else ParagraphBlock.mk (some (pyStrip child.itertext)) none (some [])) :=
      rfl
    rw [hdef, if_neg (by simp [h])]
  · intro child h
    have hall : ∀ n ∈ child.iterNodes,
        (localName n.tag == "qti-text-entry-interaction") = false := by
      intro n hn
      have := List.any_eq_false.mp h
      simpa using this n hn
    show (let st := child.iterNodes.foldl parse_paragraph_step ([], "")
          if pyStrip st.2 != "" then st.1 ++ [.textRun (pyStrip st.2)] else st.1) = _
    rw [foldl_no_widget child.iterNodes ([], "") hall]
    simp only [String.empty_append, preorder_flat_text]
    by_cases hne : (pyStrip (node_texts_concat child.iterNodes) != "") = true
    · rw [if_pos hne, if_pos hne]
      simp
    · rw [if_neg hne, if_neg hne]
  · intro st tag attrs txt cs t t' htag htt
    simp only [parse_paragraph_step, Elem.tag, Elem.tail, Elem.attrs, htag,
      if_true, htt]

/-- C4 counterexample: a widget-free paragraph `<p>Hello</p>` is stored with
`text=None` and a single inline text-run (not as plain text), and for
`<p>A<widget tail="B"/></p>` the widget's trailing text `B` appears nowhere
in the stored inline list. -/
theorem paragraph_inline_handling_counterexample :
    paragraph_block_of_p hello_p = .mk none none (some [.textRun "Hello"]) ∧
    (ParagraphBlock.mk none none (some [.textRun "Hello"])).text ≠
      some (pyStrip hello_p.itertext) ∧
    contains_widget hello_p = false ∧
    parse_paragraph widget_p = [.textRun "A", .textEntry ⟨"R1"⟩] ∧
    widget_tail_B.tail = some "B" ∧
    (InlineElement.textRun "B") ∉ parse_paragraph widget_p :=
  ⟨rfl, by decide, rfl, rfl, rfl, by decide⟩

/-- Witness for C4: the amended branch structure evaluated at
`<p>Hello</p>`. -/
theorem paragraph_inline_handling_witness :
    paragraph_block_of_p hello_p = .mk none none (some (parse_paragraph hello_p)) ∧
    parse_paragraph hello_p =
      (if pyStrip (preorder_flat_text hello_p) != "" then
        [.textRun (pyStrip (preorder_flat_text hello_p))] else []) :=
  ⟨paragraph_inline_handling.1 hello_p (by decide),
   paragraph_inline_handling.2.2.1 hello_p rfl⟩

/-! ## C6 -/

/-- C6: reading the root document tries the caller's encoding and then, on a
decode failure, exactly once the alternate of {utf-8, utf-16}; a document
whose alternate-encoding read succeeds builds exactly as a directly readable
one, and when both decode attempts fail the function returns `None` for the
whole document — no partial model. -/
theorem encoding_fallback :
    ∀ (fs : FS) (xml_path encoding : String),
      fs.is_file xml_path = true → fs.file_size xml_path ≠ 0 →
      tried_encodings encoding = [encoding, alternate_encoding encoding] ∧
      (∀ (root : Elem) (defn : AssessmentDefinition),
        fs.read_root xml_path encoding = .unicodeError →
        fs.read_root xml_path (alternate_encoding encoding) = .readOk root →
        build_definition fs xml_path root = .ok defn →
        qti_to_besser fs xml_path encoding = .ok (some defn)) ∧
      (fs.read_root xml_path encoding = .unicodeError →
       fs.read_root xml_path (alternate_encoding encoding) = .unicodeError →
       qti_to_besser fs xml_path encoding = .ok none) := by
  intro fs p enc hf hs
  have htried : tried_encodings enc = [enc, alternate_encoding enc] := by
    unfold tried_encodings alternate_encoding
    by_cases h : enc = "utf-16"
    · subst h
      simp
    · simp [bne_iff_ne, h]
  have hcond : (!fs.is_file p || fs.file_size p == 0) = false := by
    rw [hf]
    simp [hs]
  refine ⟨htried, ?_, ?_⟩
  · intro root defn h1 h2 h3
    unfold qti_to_besser
    rw [hcond, htried]
    simp only [Bool.false_eq_true, if_false, read_phase, h1, h2, h3]
  · intro h1 h2
    unfold qti_to_besser
    rw [hcond, htried]
    simp only [Bool.false_eq_true, if_false, read_phase, h1, h2]

/-- Witness for C6: a file readable only as utf-16 still parses via the
fallback, and an undecodable file yields no result. -/
theorem encoding_fallback_witness :
    qti_to_besser fs_Q1 "doc.xml" "utf-8" =
      .ok (some ⟨"T", "UNDEFINED", "", [], "", "", ""⟩) ∧
    qti_to_besser fs_undecodable "doc.xml" "utf-8" = .ok none :=
  ⟨(encoding_fallback fs_Q1 "doc.xml" "utf-8" rfl (by decide)).2.1
      (.mk "qti-assessment-test" [("identifier", "T")] none [] none)
      ⟨"T", "UNDEFINED", "", [], "", "", ""⟩ rfl rfl rfl,
   (encoding_fallback fs_undecodable "doc.xml" "utf-8" rfl (by decide)).2.2
      rfl rfl⟩

/-! ## C7 -/

/-- A successfully built item carries the identifier passed by the caller —
the reference's identifier attribute. -/
theorem build_item_identifier : ∀ (id : String) (root : Elem) (q : Question),
    build_item id root = .ok q → q.identifier = id := by
  intro id root q h
  simp only [build_item] at h
  split at h
  · exact absurd h (by simp)
  · split at h
    · exact absurd h (by simp)
    · split at h
      · exact absurd h (by simp)
      · simp only [Except.ok.injEq] at h
        subst h
        rfl

/-- C7 (amended): an item reference with an href is resolved against the
enclosing document's directory via path join; a missing file or an XML parse
failure skips just that question, leaving the remaining questions to build;
and when the referenced file exists, parses, and its item builds without
raising (in particular, it has an item body and no modal feedback), the
resulting Question is added with identifier equal to the reference's
identifier. -/
theorem href_reference_resolution :
    ∀ (fs : FS) (base_path : String) (question : Elem) (rest : List Elem)
      (href : String),
      attrLookup question.attrs "href" = some href →
      (fs.path_exists (os_path_join base_path href) = false →
        build_questions fs base_path (question :: rest) =
          build_questions fs base_path rest) ∧
      (fs.path_exists (os_path_join base_path href) = true →
       fs.parse_file (os_path_join base_path href) = none →
        build_questions fs base_path (question :: rest) =
          build_questions fs base_path rest) ∧
      (∀ (root : Elem) (q_obj : Question) (qs : List Question),
        fs.path_exists (os_path_join base_path href) = true →
        fs.parse_file (os_path_join base_path href) = some root →
        build_item (attrGet question.attrs "identifier" "UNDEFINED") root =
          .ok q_obj →
        build_questions fs base_path rest = .ok qs →
        build_questions fs base_path (question :: rest) = .ok (q_obj :: qs) ∧
        q_obj.identifier = attrGet question.attrs "identifier" "UNDEFINED") := by
  intro fs base_path question rest href hhref
  refine ⟨?_, ?_, ?_⟩
  · intro hex
    simp only [build_questions, hhref, hex, Bool.false_eq_true, if_false]
  · intro hex hparse
    simp only [build_questions, hhref, hex, if_true, hparse]
  · intro root q_obj qs hex hparse hitem hrest
    refine ⟨?_, build_item_identifier _ _ _ hitem⟩
    simp only [build_questions, hhref, hex, if_true, hparse, hitem, hrest]

/-- C7 counterexample: a referenced file that exists and parses but contains
a modal feedback makes the whole `build_questions` call raise `TypeError`,
so no Question at all results — not even for the other references. -/
theorem href_reference_resolution_counterexample :
    fs_QF.path_exists (os_path_join "base" "items/QF.xml") = true ∧
    fs_QF.parse_file (os_path_join "base" "items/QF.xml") = some item_root_QF ∧
    build_questions fs_QF "base" [ref_QF, ref_Q1] = .error (.typeError
      "ModalFeedback.__init__() got an unexpected keyword argument is_hidden") :=
  ⟨rfl, rfl, rfl⟩

/-- Witness for C7: `href="items/Q1.xml"` resolves to `base/items/Q1.xml`,
yields a Question with identifier `Q1`, and a missing `items/Q2.xml` is
skipped while the rest still builds. -/
theorem href_reference_resolution_witness :
    (build_questions fs_Q1 "base" [ref_Q1] = .ok [question_Q1] ∧
     question_Q1.identifier = attrGet ref_Q1.attrs "identifier" "UNDEFINED") ∧
    build_questions fs_Q1 "base" [ref_Q2, ref_Q1] = .ok [question_Q1] :=
  ⟨(href_reference_resolution fs_Q1 "base" ref_Q1 [] "items/Q1.xml" rfl).2.2
      item_root_Q1 question_Q1 [] rfl rfl rfl rfl,
   ((href_reference_resolution fs_Q1 "base" ref_Q2 [ref_Q1] "items/Q2.xml"
      rfl).1 rfl).trans
     ((href_reference_resolution fs_Q1 "base" ref_Q1 [] "items/Q1.xml"
        rfl).2.2 item_root_Q1 question_Q1 [] rfl rfl rfl rfl).1⟩

/-- C10: `build_assessment_parts` creates its section accumulator once
before the loop and never resets it, so with two test parts the second
constructed part is assigned the sections built from the union of the first
part's and its own section children. -/
theorem parts_accumulate_sections :
    ∀ (fs : FS) (base_path : String) (p1 p2 : Elem) (t1 t2 : AssessmentPart),
      build_assessment_parts fs base_path [p1, p2] = .ok [t1, t2] →
      build_assessment_sections fs base_path (section_children p1) =
        .ok t1.sections ∧
      build_assessment_sections fs base_path
        (section_children p1 ++ section_children p2) = .ok t2.sections := by
  intro fs base p1 p2 t1 t2 h
  unfold build_assessment_parts build_assessment_parts_loop at h
  split at h
  · exact absurd h (by simp)
  · rename_i built1 hb1
    split at h
    · exact absurd h (by simp)
    · rename_i parts1 hloop
      simp only [Except.ok.injEq, List.cons.injEq] at h
      obtain ⟨h1, h2⟩ := h
      subst h1
      subst h2
      unfold build_assessment_parts_loop at hloop
      split at hloop
      · exact absurd hloop (by simp)
      · rename_i built2 hb2
        unfold build_assessment_parts_loop at hloop
        simp only [Except.ok.injEq, List.cons.injEq, and_true] at hloop
        subst hloop
        rw [List.nil_append] at hb1 hb2
        exact ⟨hb1, hb2⟩

/-- Witness for C10: with two one-section parts, the second built part
carries both sections. -/
theorem parts_accumulate_sections_witness :
    build_assessment_parts fs_Q1 "" [part_P1, part_P2] =
      .ok [built_P1, built_P2] ∧
    build_assessment_sections fs_Q1 ""
      (section_children part_P1 ++ section_children part_P2) =
      .ok built_P2.sections :=
  ⟨rfl,
   (parts_accumulate_sections fs_Q1 "" part_P1 part_P2 built_P1 built_P2
     rfl).2⟩
